import Mathlib

/-!
Verification of the outbound chat-completion contract of `src/main.py`
(a small FastAPI app that forwards a question to the Groq chat-completion
endpoint and classifies the outcome).

Shallow embedding:
* JSON values (`json` module values / Python dicts, lists, strings, …) are
  the inductive `JVal`.
* `json.loads` of an HTTP body is modelled by an oracle parameter of type
  `Option JVal` (`none` = `json.JSONDecodeError` raised).
* network transport (`urllib.request.urlopen`) is the oracle `Transport`:
  a 2xx response with a parsed JSON body, a `urllib.error.HTTPError`
  carrying a status and a raw body, or a `urllib.error.URLError` carrying
  a reason.
* the requests issued over the wire are collected in a trace
  (`List Request`); the straight-line code performs one `urlopen` per call.
* Python exceptions that the code does not catch (`AttributeError`,
  `TypeError`, …) surface as explicit error constructors.
* key files are modelled as a list of lines, each line a `List Char`
  (Python iterates the file line by line).
-/

/-- JSON / Python values, as produced by `json.loads` and built by the
payload literal in `call_groq`. -/
inductive JVal where
  | jnull : JVal
  | jbool : Bool → JVal
  | jnum : Int → JVal
  | jstr : String → JVal
  | jarr : List JVal → JVal
  | jobj : List (String × JVal) → JVal

/-- First binding of a key in a Python dict (modelled as an association
list in insertion order). -/
def lookupField : List (String × JVal) → String → Option JVal
  | [], _ => none
  | (k, v) :: rest, key => if k = key then some v else lookupField rest key

/-- Pure field lookup on a JSON value: `some` only on objects that bind
the key. -/
def jGet (v : JVal) (key : String) : Option JVal :=
  match v with
  | .jobj fs => lookupField fs key
  | _ => none

/-- Python `d.get(key, default)`: total on dicts, raises `AttributeError`
on any other value (the source calls `.get` on values it never checks). -/
def pyDictGet (v : JVal) (key : String) (deflt : JVal) : Except String JVal :=
  match v with
  | .jobj fs => .ok ((lookupField fs key).getD deflt)
  | _ => .error "AttributeError"

/-- Python truthiness of a JSON value (`if not choices`, `x or y`). -/
def truthy : JVal → Bool
  | .jnull => false
  | .jbool b => b
  | .jnum n => n != 0
  | .jstr s => s != ""
  | .jarr xs => !xs.isEmpty
  | .jobj fs => !fs.isEmpty

/-- Python `x or d` on JSON values. -/
def orDefault (v d : JVal) : JVal := if truthy v then v else d

/-- Python `seq[0]`: head of a list, `IndexError` on an empty list,
`TypeError` (or `KeyError`) on a non-sequence. -/
def pyIndex0 : JVal → Except String JVal
  | .jarr (x :: _) => .ok x
  | .jarr [] => .error "IndexError"
  | _ => .error "TypeError"

/-- Python `str.strip()` on a character list: drop leading and trailing
whitespace. -/
def stripChars (p : Char → Bool) (l : List Char) : List Char :=
  ((l.dropWhile p).reverse.dropWhile p).reverse

/-- Python `str.strip()` (whitespace) for `String`. -/
def pyStrip (s : String) : String :=
  (stripChars Char.isWhitespace s.toList).asString

/-- Python `str.lower()` (the inputs compared against the quit sentinel
are ASCII). -/
def pyLower (s : String) : String :=
  (s.toList.map Char.toLower).asString

/-- The characters stripped by Python `.strip("\"'")`: double and single
quotes (written by code point to keep the file plain ASCII-safe). -/
def isQuoteChar (c : Char) : Bool := c == Char.ofNat 34 || c == Char.ofNat 39

/-- One file's lines, scanned by `load_api_key` (src/main.py lines 30-38):
skip blank and `#` lines, return the unquoted value of the first
`GROQ_API_KEY=<value>` line, or the first bare `gsk_`-prefixed line. -/
def scanLines : List (List Char) → Option (List Char)
  | [] => none
  | line :: rest =>
    let raw := stripChars Char.isWhitespace line
    if raw.isEmpty || "#".toList.isPrefixOf raw then scanLines rest
    else if "GROQ_API_KEY=".toList.isPrefixOf raw then
      some (stripChars isQuoteChar (stripChars Char.isWhitespace (raw.drop 13)))
    else if "gsk_".toList.isPrefixOf raw then some raw
    else scanLines rest

/-- Scan one optional file (`none` = file does not exist). -/
def scanFile (f : Option (List (List Char))) : Option (List Char) :=
  f.bind scanLines

/-- The loop over `("api_key.env", ".env")` in `load_api_key`
(src/main.py lines 25-40): first match wins, `""` when nothing matches. -/
def scanFiles (apiKeyEnvFile dotEnvFile : Option (List (List Char))) : String :=
  match scanFile apiKeyEnvFile with
  | some v => v.asString
  | none =>
    match scanFile dotEnvFile with
    | some v => v.asString
    | none => ""

/-- `load_api_key` (src/main.py lines 20-40): the `GROQ_API_KEY`
environment variable (stripped) when set and truthy, else the file scan.
`env = none` models an unset variable. -/
def load_api_key (env : Option String) (apiKeyEnvFile dotEnvFile : Option (List (List Char))) :
    String :=
  match env with
  | some k => if k = "" then scanFiles apiKeyEnvFile dotEnvFile else pyStrip k
  | none => scanFiles apiKeyEnvFile dotEnvFile

/-- The fixed endpoint (src/main.py line 12). -/
def API_URL : String := "https://api.groq.com/openai/v1/chat/completions"

/-- The request payload literal of `call_groq` (src/main.py lines 51-63). -/
def buildPayload (question : String) : JVal :=
  .jobj [
    ("messages", .jarr [
      .jobj [("role", .jstr "assistant"),
             ("content", .jstr "Be a straightforward assistant")],
      .jobj [("role", .jstr "user"), ("content", .jstr question)]]),
    ("model", .jstr "openai/gpt-oss-120b"),
    ("temperature", .jnum 1),
    ("max_completion_tokens", .jnum 8192),
    ("top_p", .jnum 1),
    ("stream", .jbool false),
    ("reasoning_effort", .jstr "medium"),
    ("stop", .jnull)]

/-- One outbound HTTP request as built in src/main.py lines 65-73. -/
structure Request where
  url : String
  method : String
  headers : List (String × String)
  body : JVal

/-- The single request `call_groq` issues for a question and an API key. -/
def groqRequest (question apiKey : String) : Request :=
  { url := API_URL
    method := "POST"
    headers := [("Content-Type", "application/json"),
                ("Authorization", "Bearer " ++ apiKey)]
    body := buildPayload question }

/-- Transport oracle: the outcome of `urllib.request.urlopen` for the one
request. `ok data` is a 2xx response whose body parses to `data`;
`httpErr` is a `urllib.error.HTTPError` with status, raw body and the
result of `json.loads` on that body (`none` = parse error); `urlErr` is a
`urllib.error.URLError` with its reason. -/
inductive Transport where
  | ok : JVal → Transport
  | httpErr : Nat → String → Option JVal → Transport
  | urlErr : String → Transport

/-- Response handling of `call_groq` (src/main.py lines 78-81):
`choices = data.get("choices", [])`; falsy choices give the fixed
diagnostic string; otherwise `choices[0].get("message", {}).get("content", "")`
with the `or "(Empty response)"` fallback. -/
def call_groq_parse (data : JVal) : Except String JVal :=
  match pyDictGet data "choices" (.jarr []) with
  | .error e => .error e
  | .ok choices =>
    if truthy choices then
      match pyIndex0 choices with
      | .error e => .error e
      | .ok c0 =>
        match pyDictGet c0 "message" (.jobj []) with
        | .error e => .error e
        | .ok msg =>
          match pyDictGet msg "content" (.jstr "") with
          | .error e => .error e
          | .ok content => .ok (orDefault content (.jstr "(Empty response)"))
    else .ok (.jstr "No response choices returned.")

/-- Outcome of one `call_groq` invocation: a normal return, a raised
FastAPI `HTTPException`, a propagating `urllib.error.HTTPError` or
`URLError`, or an uncaught Python exception. -/
inductive CallOutcome where
  | ret : JVal → CallOutcome
  | httpException : Nat → JVal → CallOutcome
  | httpError : Nat → String → Option JVal → CallOutcome
  | urlError : String → CallOutcome
  | pyError : String → CallOutcome

/-- `call_groq` (src/main.py lines 43-81): load the key, fail with a 500
`HTTPException` when it is empty, otherwise issue exactly one POST and
handle the transport outcome. The second component is the trace of
requests put on the wire. -/
def call_groq (question : String) (env : Option String)
    (apiKeyEnvFile dotEnvFile : Option (List (List Char))) (t : Transport) :
    CallOutcome × List Request :=
  let api_key := load_api_key env apiKeyEnvFile dotEnvFile
  if api_key = "" then
    (.httpException 500
      (.jstr "GROQ API key not found. Set GROQ_API_KEY or create api_key.env."), [])
  else
    let req := groqRequest question api_key
    match t with
    | .ok data =>
      (match call_groq_parse data with
       | .ok v => .ret v
       | .error e => .pyError e, [req])
    | .httpErr code body parsed => (.httpError code body parsed, [req])
    | .urlErr reason => (.urlError reason, [req])

/-- Detail extraction of the `urllib.error.HTTPError` handler in `chat`
(src/main.py lines 167-175): on a JSON parse error the raw body; on a
parsed value, `parsed.get("error", {}).get("message") or
parsed.get("message") or body`, with `AttributeError` when a `.get`
receiver is not a dict. -/
def httpErrorDetail (body : String) (parsed : Option JVal) : Except String JVal :=
  match parsed with
  | none => .ok (.jstr body)
  | some p =>
    match pyDictGet p "error" (.jobj []) with
    | .error e => .error e
    | .ok errVal =>
      match pyDictGet errVal "message" .jnull with
      | .error e => .error e
      | .ok m1 =>
        if truthy m1 then .ok m1
        else
          match pyDictGet p "message" .jnull with
          | .error e => .error e
          | .ok m2 => if truthy m2 then .ok m2 else .ok (.jstr body)

/-- Outcome of one `POST /chat` request: a 200 JSON body, an HTTP error
response with status and detail (FastAPI renders both a raised
`HTTPException` and one propagating from `call_groq` this way), or an
uncaught Python exception. -/
inductive ChatResult where
  | ret : JVal → ChatResult
  | httpExc : Nat → JVal → ChatResult
  | pyErr : String → ChatResult

/-- The body returned for the quit sentinel (src/main.py line 162). -/
def quitResponse : JVal :=
  .jobj [("answer", .jstr "Chat ended. Refresh the page to start again."),
         ("ended", .jbool true)]

/-- The `POST /chat` handler (src/main.py lines 156-177): strip the
question, reject empty input with 400, short-circuit the quit sentinel,
otherwise call `call_groq` and classify errors. The second component is
the trace of outbound provider requests. -/
def chat (rawQuestion : String) (env : Option String)
    (apiKeyEnvFile dotEnvFile : Option (List (List Char))) (t : Transport) :
    ChatResult × List Request :=
  let question := pyStrip rawQuestion
  if question = "" then
    (.httpExc 400 (.jstr "Question cannot be empty."), [])
  else if pyLower question = "quit" then
    (.ret quitResponse, [])
  else
    match call_groq question env apiKeyEnvFile dotEnvFile t with
    | (.ret v, tr) => (.ret (.jobj [("answer", v), ("ended", .jbool false)]), tr)
    | (.httpException s d, tr) => (.httpExc s d, tr)
    | (.httpError code body parsed, tr) =>
      (match httpErrorDetail body parsed with
       | .ok d => (.httpExc code d, tr)
       | .error e => (.pyErr e, tr))
    | (.urlError r, tr) => (.httpExc 502 (.jstr ("Network error: " ++ r)), tr)
    | (.pyError e, tr) => (.pyErr e, tr)

/-- `pat` occurs as a contiguous run inside the character list. -/
def occursIn (pat : List Char) : List Char → Bool
  | [] => pat.isEmpty
  | c :: cs => pat.isPrefixOf (c :: cs) || occursIn pat cs

/-- `needle` occurs as a contiguous substring of `hay`. -/
def strOccurs (needle hay : String) : Bool :=
  occursIn needle.toList hay.toList

/-! ## Behavior lemmas shared by the claims -/

theorem call_groq_trace (q : String) (env : Option String)
    (fa fb : Option (List (List Char))) (t : Transport)
    (hkey : load_api_key env fa fb ≠ "") :
    (call_groq q env fa fb t).2 = [groqRequest q (load_api_key env fa fb)] := by
  cases t <;> simp [call_groq, hkey]

theorem chat_httpErr_eq (q : String) (env : Option String)
    (fa fb : Option (List (List Char))) (code : Nat) (body : String)
    (p : Option JVal) (d : JVal)
    (hq1 : pyStrip q ≠ "") (hq2 : pyLower (pyStrip q) ≠ "quit")
    (hkey : load_api_key env fa fb ≠ "") (hd : httpErrorDetail body p = .ok d) :
    chat q env fa fb (.httpErr code body p) =
      (.httpExc code d, [groqRequest (pyStrip q) (load_api_key env fa fb)]) := by
  simp [chat, call_groq, hq1, hq2, hkey, hd]

theorem chat_urlErr_eq (q : String) (env : Option String)
    (fa fb : Option (List (List Char))) (r : String)
    (hq1 : pyStrip q ≠ "") (hq2 : pyLower (pyStrip q) ≠ "quit")
    (hkey : load_api_key env fa fb ≠ "") :
    chat q env fa fb (.urlErr r) =
      (.httpExc 502 (.jstr ("Network error: " ++ r)),
       [groqRequest (pyStrip q) (load_api_key env fa fb)]) := by
  simp [chat, call_groq, hq1, hq2, hkey]

theorem chat_trace (raw : String) (env : Option String)
    (fa fb : Option (List (List Char))) (t : Transport)
    (h1 : pyStrip raw ≠ "") (h2 : pyLower (pyStrip raw) ≠ "quit")
    (hkey : load_api_key env fa fb ≠ "") :
    (chat raw env fa fb t).2 = [groqRequest (pyStrip raw) (load_api_key env fa fb)] := by
  cases t with
  | ok data =>
    cases hp : call_groq_parse data <;> simp [chat, call_groq, h1, h2, hkey, hp]
  | httpErr code body parsed =>
    cases hdet : httpErrorDetail body parsed <;>
      simp [chat, call_groq, h1, h2, hkey, hdet]
  | urlErr r => simp [chat, call_groq, h1, h2, hkey]

/-! ## Claim theorems -/

/-- C1: for every non-empty userText not equal to "quit" (case-insensitive),
a call to the completion client issues exactly one POST whose JSON body has
the framing message first and the user message second, with
messages[1].content equal to userText, and the constant fields model,
temperature=1, max_completion_tokens=8192, top_p=1, stream=false,
reasoning_effort="medium", stop=null. -/
theorem claim1_single_post_payload (q : String) (env : Option String)
    (fa fb : Option (List (List Char))) (t : Transport)
    (hq1 : q ≠ "") (hq2 : pyLower q ≠ "quit")
    (hkey : load_api_key env fa fb ≠ "") :
    (call_groq q env fa fb t).2 = [groqRequest q (load_api_key env fa fb)] ∧
    (groqRequest q (load_api_key env fa fb)).method = "POST" ∧
    jGet (groqRequest q (load_api_key env fa fb)).body "messages" =
      some (.jarr [.jobj [("role", .jstr "assistant"),
                          ("content", .jstr "Be a straightforward assistant")],
                   .jobj [("role", .jstr "user"), ("content", .jstr q)]]) ∧
    jGet (groqRequest q (load_api_key env fa fb)).body "model" =
      some (.jstr "openai/gpt-oss-120b") ∧
    jGet (groqRequest q (load_api_key env fa fb)).body "temperature" =
      some (.jnum 1) ∧
    jGet (groqRequest q (load_api_key env fa fb)).body "max_completion_tokens" =
      some (.jnum 8192) ∧
    jGet (groqRequest q (load_api_key env fa fb)).body "top_p" =
      some (.jnum 1) ∧
    jGet (groqRequest q (load_api_key env fa fb)).body "stream" =
      some (.jbool false) ∧
    jGet (groqRequest q (load_api_key env fa fb)).body "reasoning_effort" =
      some (.jstr "medium") ∧
    jGet (groqRequest q (load_api_key env fa fb)).body "stop" = some .jnull := by
  refine ⟨call_groq_trace q env fa fb t hkey, rfl, rfl, rfl, rfl, rfl, rfl, rfl, rfl, rfl⟩

/-- Witness for C1 at a concrete question, key and transport. -/
theorem claim1_single_post_payload_witness :
    (call_groq "hello" (some "gsk_k") none none (.ok .jnull)).2 =
      [groqRequest "hello" (load_api_key (some "gsk_k") none none)] :=
  (claim1_single_post_payload "hello" (some "gsk_k") none none (.ok .jnull)
    (by decide) (by decide) (by decide)).1

/-- C2 counterexample: on HTTP 200 with an empty choices array the code
returns the fixed string "No response choices returned.", which does not
contain the raw response body; the claim's "returned text contains the
literal raw response content" is false at this input. -/
theorem claim2_counterexample :
    (call_groq "hi" (some "gsk_k") none none
        (.ok (.jobj [("choices", .jarr [])]))).1 =
      .ret (.jstr "No response choices returned.") ∧
    strOccurs "\x7b\"choices\": []\x7d" "No response choices returned." = false :=
  ⟨rfl, by decide⟩

/-- C2 amended: if the provider returns HTTP 200 with an empty choices
array, the result is a Success (not a Failure) whose returned text is the
fixed diagnostic "No response choices returned." (the raw response content
is not embedded). -/
theorem claim2_amended (q : String) (env : Option String)
    (fa fb : Option (List (List Char))) (data : JVal)
    (hkey : load_api_key env fa fb ≠ "")
    (hchoices : pyDictGet data "choices" (.jarr []) = .ok (.jarr [])) :
    (call_groq q env fa fb (.ok data)).1 =
      .ret (.jstr "No response choices returned.") := by
  simp [call_groq, hkey, call_groq_parse, hchoices, truthy]

/-- Witness for the amended C2 at a concrete empty-choices response. -/
theorem claim2_amended_witness :
    (call_groq "hey" (some "gsk_w") none none
        (.ok (.jobj [("choices", .jarr [])]))).1 =
      .ret (.jstr "No response choices returned.") :=
  claim2_amended "hey" (some "gsk_w") none none (.jobj [("choices", .jarr [])])
    (by decide) rfl

/-- C5: POSTing question "quit" returns a success body with ended = true
and no outbound provider call is made. -/
theorem claim5_quit_short_circuit (env : Option String)
    (fa fb : Option (List (List Char))) (t : Transport) :
    chat "quit" env fa fb t = (.ret quitResponse, []) ∧
    jGet quitResponse "ended" = some (.jbool true) :=
  ⟨rfl, rfl⟩

/-- C6: POSTing an empty question returns HTTP 400 with a non-empty
detail, and no outbound provider call is made. -/
theorem claim6_empty_question_400 (env : Option String)
    (fa fb : Option (List (List Char))) (t : Transport) :
    chat "" env fa fb t = (.httpExc 400 (.jstr "Question cannot be empty."), []) ∧
    "Question cannot be empty." ≠ "" :=
  ⟨rfl, by decide⟩

/-- C7 counterexample: on a transport failure with reason "timed out" the
detail is "Network error: timed out", not the bare failure reason; the
claim's "whose detail is the failure reason" is false at this input. -/
theorem claim7_counterexample :
    chat "hi" (some "gsk_k") none none (.urlErr "timed out") =
      (.httpExc 502 (.jstr "Network error: timed out"), [groqRequest "hi" "gsk_k"]) ∧
    "Network error: timed out" ≠ "timed out" :=
  ⟨rfl, by decide⟩

/-- C7 amended: on any transport-level failure the completion call returns
a NetworkError-kind failure (HTTP 502) whose detail is the failure reason
prefixed with "Network error: ", with exactly one attempt and no retry. -/
theorem claim7_amended (q : String) (env : Option String)
    (fa fb : Option (List (List Char))) (reason : String)
    (hq1 : pyStrip q ≠ "") (hq2 : pyLower (pyStrip q) ≠ "quit")
    (hkey : load_api_key env fa fb ≠ "") :
    chat q env fa fb (.urlErr reason) =
      (.httpExc 502 (.jstr ("Network error: " ++ reason)),
       [groqRequest (pyStrip q) (load_api_key env fa fb)]) ∧
    (chat q env fa fb (.urlErr reason)).2.length = 1 := by
  refine ⟨chat_urlErr_eq q env fa fb reason hq1 hq2 hkey, ?_⟩
  rw [chat_urlErr_eq q env fa fb reason hq1 hq2 hkey]
  rfl

/-- Witness for the amended C7 at a concrete question, key and reason. -/
theorem claim7_amended_witness :
    chat "hi" (some "gsk_w") none none (.urlErr "refused") =
      (.httpExc 502 (.jstr ("Network error: " ++ "refused")),
       [groqRequest (pyStrip "hi") (load_api_key (some "gsk_w") none none)]) :=
  (claim7_amended "hi" (some "gsk_w") none none "refused"
    (by decide) (by decide) (by decide)).1

/-- C3 counterexample: for HTTP 429 with body containing only a top-level
"message" field (valid JSON without a nested error.message), the detail is
that top-level message, not the raw body verbatim as the claim requires. -/
theorem claim3_counterexample :
    chat "hi" (some "gsk_k") none none
        (.httpErr 429 "\x7b\"message\": \"oops\"\x7d"
          (some (.jobj [("message", .jstr "oops")]))) =
      (.httpExc 429 (.jstr "oops"), [groqRequest "hi" "gsk_k"]) ∧
    "oops" ≠ "\x7b\"message\": \"oops\"\x7d" :=
  ⟨rfl, by decide⟩

/-- C3 amended: on a non-2xx HTTP status the result is a Failure of kind
HttpError carrying that status code; the detail is the nested
error.message when the body parses to a JSON object whose error field is an
object with a non-empty string message; otherwise, when the error field is
absent or an object whose message is not truthy (absent, null, empty, …),
the detail is the top-level message field when it is a non-empty string;
otherwise the raw body verbatim (also when the body is not valid JSON). -/
theorem claim3_amended (q : String) (env : Option String)
    (fa fb : Option (List (List Char))) (code : Nat) (body : String)
    (hq1 : pyStrip q ≠ "") (hq2 : pyLower (pyStrip q) ≠ "quit")
    (hkey : load_api_key env fa fb ≠ "") :
    (chat q env fa fb (.httpErr code body none) =
       (.httpExc code (.jstr body),
        [groqRequest (pyStrip q) (load_api_key env fa fb)])) ∧
    (∀ fs efs s, lookupField fs "error" = some (.jobj efs) →
       lookupField efs "message" = some (.jstr s) → s ≠ "" →
       chat q env fa fb (.httpErr code body (some (.jobj fs))) =
         (.httpExc code (.jstr s),
          [groqRequest (pyStrip q) (load_api_key env fa fb)])) ∧
    (∀ fs efs s,
       (lookupField fs "error" = some (.jobj efs) ∨
        (lookupField fs "error" = none ∧ efs = [])) →
       truthy ((lookupField efs "message").getD .jnull) = false →
       lookupField fs "message" = some (.jstr s) → s ≠ "" →
       chat q env fa fb (.httpErr code body (some (.jobj fs))) =
         (.httpExc code (.jstr s),
          [groqRequest (pyStrip q) (load_api_key env fa fb)])) ∧
    (∀ fs efs,
       (lookupField fs "error" = some (.jobj efs) ∨
        (lookupField fs "error" = none ∧ efs = [])) →
       truthy ((lookupField efs "message").getD .jnull) = false →
       truthy ((lookupField fs "message").getD .jnull) = false →
       chat q env fa fb (.httpErr code body (some (.jobj fs))) =
         (.httpExc code (.jstr body),
          [groqRequest (pyStrip q) (load_api_key env fa fb)])) := by
  refine ⟨?_, ?_, ?_, ?_⟩
  · exact chat_httpErr_eq q env fa fb code body none (.jstr body) hq1 hq2 hkey rfl
  · intro fs efs s herr hmsg hs
    refine chat_httpErr_eq q env fa fb code body _ (.jstr s) hq1 hq2 hkey ?_
    simp [httpErrorDetail, pyDictGet, herr, hmsg, truthy, hs]
  · intro fs efs s herr hm1 hmsg hs
    refine chat_httpErr_eq q env fa fb code body _ (.jstr s) hq1 hq2 hkey ?_
    have hts : truthy (.jstr s) = true := by simp [truthy, hs]
    have htn : truthy .jnull = false := rfl
    rcases herr with he | ⟨he, hefs⟩
    · simp [httpErrorDetail, pyDictGet, he, hm1, hmsg, hts]
    · subst hefs
      simp [httpErrorDetail, pyDictGet, he, hmsg, hts, htn, lookupField]
  · intro fs efs herr hm1 hm2
    refine chat_httpErr_eq q env fa fb code body _ (.jstr body) hq1 hq2 hkey ?_
    have htn : truthy .jnull = false := rfl
    rcases herr with he | ⟨he, hefs⟩
    · simp [httpErrorDetail, pyDictGet, he, hm1, hm2]
    · subst hefs
      simp [httpErrorDetail, pyDictGet, he, hm2, htn, lookupField]

/-- Witness for the amended C3: the rate-limit example from the spec, and
a body whose error.message is empty so the top-level message is used. -/
theorem claim3_amended_witness :
    (chat "hi" (some "gsk_w") none none
        (.httpErr 429 "\x7b\"error\": \x7b\"message\": \"rate limited\"\x7d\x7d"
          (some (.jobj [("error", .jobj [("message", .jstr "rate limited")])]))) =
      (.httpExc 429 (.jstr "rate limited"),
       [groqRequest (pyStrip "hi") (load_api_key (some "gsk_w") none none)])) ∧
    (chat "hi" (some "gsk_w") none none
        (.httpErr 500 "\x7b\"error\": \x7b\"message\": \"\"\x7d, \"message\": \"oops\"\x7d"
          (some (.jobj [("error", .jobj [("message", .jstr "")]),
                        ("message", .jstr "oops")]))) =
      (.httpExc 500 (.jstr "oops"),
       [groqRequest (pyStrip "hi") (load_api_key (some "gsk_w") none none)])) :=
  ⟨(claim3_amended "hi" (some "gsk_w") none none 429
      "\x7b\"error\": \x7b\"message\": \"rate limited\"\x7d\x7d"
      (by decide) (by decide) (by decide)).2.1
    [("error", .jobj [("message", .jstr "rate limited")])]
    [("message", .jstr "rate limited")] "rate limited" rfl rfl (by decide),
   (claim3_amended "hi" (some "gsk_w") none none 500
      "\x7b\"error\": \x7b\"message\": \"\"\x7d, \"message\": \"oops\"\x7d"
      (by decide) (by decide) (by decide)).2.2.1
    [("error", .jobj [("message", .jstr "")]), ("message", .jstr "oops")]
    [("message", .jstr "")] "oops" (Or.inl rfl) rfl rfl (by decide)⟩

/-- C4: if the provider returns HTTP 200 with a non-empty choices array but
choices[0].message.content is absent or the empty string, the result is
Success with text exactly "(Empty response)". -/
theorem claim4_empty_content_placeholder (q : String) (env : Option String)
    (fa fb : Option (List (List Char))) (fields cf mf : List (String × JVal))
    (rest : List JVal)
    (hkey : load_api_key env fa fb ≠ "")
    (hch : lookupField fields "choices" = some (.jarr (.jobj cf :: rest)))
    (hmsg : lookupField cf "message" = some (.jobj mf) ∨
            lookupField cf "message" = none)
    (hcontent : lookupField mf "content" = some (.jstr "") ∨
                lookupField mf "content" = none) :
    (call_groq q env fa fb (.ok (.jobj fields))).1 =
      .ret (.jstr "(Empty response)") := by
  rcases hmsg with hm | hm <;> rcases hcontent with hc | hc <;>
    simp [call_groq, hkey, call_groq_parse, pyDictGet, pyIndex0, hch, hm, hc,
      truthy, orDefault, lookupField]

/-- Witness for C4 at a concrete response with an empty content string. -/
theorem claim4_empty_content_placeholder_witness :
    (call_groq "hi" (some "gsk_w") none none
        (.ok (.jobj [("choices",
          .jarr [.jobj [("message", .jobj [("content", .jstr "")])]])]))).1 =
      .ret (.jstr "(Empty response)") :=
  claim4_empty_content_placeholder "hi" (some "gsk_w") none none
    [("choices", .jarr [.jobj [("message", .jobj [("content", .jstr "")])]])]
    [("message", .jobj [("content", .jstr "")])] [("content", .jstr "")] []
    (by decide) rfl (Or.inl rfl) (Or.inl rfl)

/-- C8 counterexample: with GROQ_API_KEY set to " gsk_secret " the lookup
returns the stripped value "gsk_secret", not the environment variable's
value itself. -/
theorem claim8_counterexample :
    load_api_key (some " gsk_secret ") none none = "gsk_secret" ∧
    "gsk_secret" ≠ " gsk_secret " :=
  ⟨rfl, by decide⟩

/-- C8 amended: credential lookup returns the environment variable
GROQ_API_KEY stripped of surrounding whitespace when it is set and
non-empty (the key files are then never consulted); otherwise it scans the
local key files in order, returning the stripped, unquoted value of the
first line of the form GROQ_API_KEY=<value> or the first bare
(whitespace-stripped) value prefixed gsk_; lines of neither form (blank,
comment, or other content) are skipped, and once a match is found no later
file or line is considered. -/
theorem claim8_amended :
    (∀ (k : String) fa fb, k ≠ "" → load_api_key (some k) fa fb = pyStrip k) ∧
    (∀ fa fb, load_api_key none fa fb = scanFiles fa fb ∧
       load_api_key (some "") fa fb = scanFiles fa fb) ∧
    (∀ la v fb, scanLines la = some v →
       load_api_key none (some la) fb = v.asString) ∧
    (∀ la lb, scanLines la = none →
       load_api_key none (some la) (some lb) = load_api_key none none (some lb)) ∧
    (∀ l ls w, stripChars Char.isWhitespace l = "GROQ_API_KEY=".toList ++ w →
       scanLines (l :: ls) =
         some (stripChars isQuoteChar (stripChars Char.isWhitespace w))) ∧
    (∀ l ls w, stripChars Char.isWhitespace l = "gsk_".toList ++ w →
       scanLines (l :: ls) = some ("gsk_".toList ++ w)) ∧
    (∀ l ls,
       "GROQ_API_KEY=".toList.isPrefixOf (stripChars Char.isWhitespace l) = false →
       "gsk_".toList.isPrefixOf (stripChars Char.isWhitespace l) = false →
       scanLines (l :: ls) = scanLines ls) := by
  refine ⟨?_, ?_, ?_, ?_, ?_, ?_, ?_⟩
  · intro k fa fb hk
    simp [load_api_key, hk]
  · intro fa fb
    exact ⟨rfl, rfl⟩
  · intro la v fb h
    simp [load_api_key, scanFiles, scanFile, h]
  · intro la lb h
    simp [load_api_key, scanFiles, scanFile, h]
  · intro l ls w h
    simp [scanLines, h, List.isPrefixOf]
  · intro l ls w h
    simp [scanLines, h, List.isPrefixOf]
  · intro l ls h1 h2
    simp at h1 h2
    cases hb : ((stripChars Char.isWhitespace l).isEmpty ||
        "#".toList.isPrefixOf (stripChars Char.isWhitespace l)) <;>
      simp [scanLines, hb, h1, h2]

/-- Witness for the amended C8: environment priority, a matching key-value
line, a matching bare key line, and a skipped comment line before a match,
all at concrete inputs. -/
theorem claim8_amended_witness :
    load_api_key (some " gsk_env ") (some [" gsk_file ".toList]) none = pyStrip " gsk_env " ∧
    scanLines ["GROQ_API_KEY= \"gsk_abc\" ".toList, "gsk_zzz".toList] =
      some (stripChars isQuoteChar
        (stripChars Char.isWhitespace " \"gsk_abc\"".toList)) ∧
    scanLines [" gsk_bare ".toList] = some ("gsk_".toList ++ "bare".toList) ∧
    scanLines ["# c".toList, "gsk_abc".toList] = scanLines ["gsk_abc".toList] :=
  ⟨claim8_amended.1 " gsk_env " (some [" gsk_file ".toList]) none (by decide),
   claim8_amended.2.2.2.2.1 "GROQ_API_KEY= \"gsk_abc\" ".toList ["gsk_zzz".toList]
     " \"gsk_abc\"".toList (by decide),
   claim8_amended.2.2.2.2.2.1 " gsk_bare ".toList [] "bare".toList (by decide),
   claim8_amended.2.2.2.2.2.2 "# c".toList ["gsk_abc".toList]
     (by decide) (by decide)⟩

/-- C9: any question whose trimmed value equals "quit" ignoring case
short-circuits with ended = true and no provider call; in the non-quit
case the trimmed question (not the raw input) is what the payload's user
message carries. -/
theorem claim9_trimmed_question (raw : String) (env : Option String)
    (fa fb : Option (List (List Char))) (t : Transport) :
    (pyStrip raw ≠ "" → pyLower (pyStrip raw) = "quit" →
       chat raw env fa fb t = (.ret quitResponse, [])) ∧
    (pyStrip raw ≠ "" → pyLower (pyStrip raw) ≠ "quit" →
       load_api_key env fa fb ≠ "" →
       (chat raw env fa fb t).2 =
         [groqRequest (pyStrip raw) (load_api_key env fa fb)] ∧
       jGet (groqRequest (pyStrip raw) (load_api_key env fa fb)).body "messages" =
         some (.jarr [.jobj [("role", .jstr "assistant"),
                             ("content", .jstr "Be a straightforward assistant")],
                      .jobj [("role", .jstr "user"),
                             ("content", .jstr (pyStrip raw))]])) := by
  constructor
  · intro h1 h2
    simp [chat, h1, h2]
  · intro h1 h2 hkey
    exact ⟨chat_trace raw env fa fb t h1 h2 hkey, rfl⟩

/-- Witness for C9 at the mixed-case padded input "  QUIT  ". -/
theorem claim9_trimmed_question_witness :
    chat "  QUIT  " (some "gsk_w") none none (.ok .jnull) = (.ret quitResponse, []) :=
  (claim9_trimmed_question "  QUIT  " (some "gsk_w") none none (.ok .jnull)).1
    (by decide) (by decide)

/-- C10: every successful /chat response has ended = true exactly when the
trimmed question is the quit sentinel; every non-quit success has
ended = false. -/
theorem claim10_ended_iff_quit (raw : String) (env : Option String)
    (fa fb : Option (List (List Char))) (t : Transport) (v : JVal)
    (tr : List Request) (h : chat raw env fa fb t = (.ret v, tr)) :
    (jGet v "ended" = some (.jbool true) ↔ pyLower (pyStrip raw) = "quit") ∧
    (pyLower (pyStrip raw) ≠ "quit" → jGet v "ended" = some (.jbool false)) := by
  by_cases h1 : pyStrip raw = ""
  · simp [chat, h1] at h
  · by_cases h2 : pyLower (pyStrip raw) = "quit"
    · simp [chat, h1, h2] at h
      obtain ⟨hv, -⟩ := h
      subst hv
      simp [jGet, quitResponse, lookupField, h2]
    · simp only [chat, if_neg h1, if_neg h2] at h
      rcases hc : call_groq (pyStrip raw) env fa fb t with ⟨o, tr2⟩
      rw [hc] at h
      cases o with
      | ret v0 =>
        simp at h
        obtain ⟨hv, -⟩ := h
        subst hv
        simp [jGet, lookupField, h2]
      | httpException s d => simp at h
      | httpError code body parsed =>
        rcases hdet : httpErrorDetail body parsed with e | d <;> simp [hdet] at h
      | urlError r => simp at h
      | pyError e => simp at h

/-- Witness for C10 at the quit sentinel (a successful response with
ended = true). -/
theorem claim10_ended_iff_quit_witness :
    (jGet quitResponse "ended" = some (.jbool true) ↔
       pyLower (pyStrip "quit") = "quit") ∧
    (pyLower (pyStrip "quit") ≠ "quit" →
       jGet quitResponse "ended" = some (.jbool false)) :=
  claim10_ended_iff_quit "quit" (some "gsk_w") none none (.ok .jnull)
    quitResponse [] rfl
